import Mathlib

/-!
# Verification of the embedded composite host and mobile sidebar widget

This file gives a shallow embedding of the two TypeScript classes of this
repository — `EmbeddedCompositeHost` (a host that renders pane composites in an
arbitrary container) and `MobileSidebarWidget` (a mobile sidebar switching
between such composites via icon buttons) — and proves the frozen claims about
them.

Modelling conventions:
* JavaScript `Map` objects become association lists with `Map`-faithful
  `get`/`set`/`delete` (insertion order preserved, `set` updates in place).
* A pane composite is modelled by its observable state: a creation tag
  (`tag`, a fresh number per `descriptor.instantiate` call, so identity and
  "a new composite was instantiated" are expressible), its `setVisible` flag,
  whether it has been disposed, and the list of dimensions forwarded to its
  `layout` method (most recent first).
* A DOM element is modelled by its inline `display` and `height` styles and
  an `attached` flag meaning "currently a child of the host's constructor
  container" (the only `appendChild` in the host targets `this.container`;
  `remove()` clears the flag).
* External outcomes (registry descriptor lookup, `createComposite` result,
  `composite.create` throwing, the host container's bounding rectangle) are an
  explicit environment `OpenEnv`, so the single `async` method `openComposite`
  becomes one atomic deterministic step.
* Effects on objects that are created and torn down entirely inside a failed
  `openComposite` call (the local `DisposableStore` and container element that
  never reach the map) are reported in the `orphanDisposables` /
  `orphanContainer` fields of the result, so the cleanup can be observed.
-/

/-- Width and height as passed to `layout` (the `Dimension` of `dom.ts`). -/
structure Dimension where
  width : Int
  height : Int
deriving DecidableEq, Repr

/-- Observable state of a `DisposableStore`. -/
structure DisposableStore where
  isDisposed : Bool
deriving DecidableEq, Repr

/-- Observable state of a `PaneComposite` instance. -/
structure CompositeState where
  tag : Nat
  visible : Bool
  disposed : Bool
  layouts : List Dimension
deriving DecidableEq, Repr

/-- Observable state of a DOM element created for a composite.  `attached`
means the element is currently a child of the host's constructor container. -/
structure DomElem where
  display : String
  height : String
  attached : Bool
deriving DecidableEq, Repr

/-- One value of the `composites` map: `{ composite, container, disposables }`. -/
structure CompositeEntry where
  composite : CompositeState
  container : DomElem
  disposables : DisposableStore
deriving DecidableEq, Repr

/-- Association-list model of a JavaScript `Map` keyed by strings. -/
def mapGet {α : Type} : List (String × α) → String → Option α
  | [], _ => none
  | (k, v) :: rest, key => if k = key then some v else mapGet rest key

/-- `Map.prototype.set`: update in place if the key exists, else append. -/
def mapSet {α : Type} : List (String × α) → String → α → List (String × α)
  | [], key, val => [(key, val)]
  | (k, v) :: rest, key, val =>
      if k = key then (key, val) :: rest else (k, v) :: mapSet rest key val

/-- `Map.prototype.delete`: remove the entry with the given key. -/
def mapDelete {α : Type} : List (String × α) → String → List (String × α)
  | [], _ => []
  | (k, v) :: rest, key => if k = key then rest else (k, v) :: mapDelete rest key

namespace EmbeddedCompositeHost

/-- The mutable fields of `EmbeddedCompositeHost`: the `composites` map, the
`currentCompositeId`, the `creatingComposites` set, plus a counter supplying
fresh tags for newly instantiated composites. -/
structure HostState where
  composites : List (String × CompositeEntry)
  currentCompositeId : Option String
  creatingComposites : List String
  nextTag : Nat
deriving DecidableEq, Repr

/-- The state of a freshly constructed host: empty map, no current composite,
nothing being created. -/
def initial : HostState :=
  { composites := [], currentCompositeId := none, creatingComposites := [], nextTag := 0 }

/-- Effect of `hideComposite` on the entry it targets: `setVisible(false)` and
`container.style.display = 'none'`. -/
def hiddenEntry (e : CompositeEntry) : CompositeEntry :=
  { e with
      composite := { e.composite with visible := false },
      container := { e.container with display := "none" } }

/-- Effect of `showComposite` on the entry it targets: display `block`, height
`100%`, `setVisible(true)`, then a `layout` with the host container's bounds. -/
def shownEntry (hostBounds : Dimension) (e : CompositeEntry) : CompositeEntry :=
  { e with
      composite := { e.composite with
          visible := true,
          layouts := hostBounds :: e.composite.layouts },
      container := { e.container with display := "block", height := "100%" } }

/-- `hideComposite(compositeId)`: look the entry up; if absent do nothing, else
just hide it — the entry stays in the map and nothing is disposed or removed. -/
def hideComposite (s : HostState) (compositeId : String) : HostState :=
  match mapGet s.composites compositeId with
  | none => s
  | some entry =>
      { s with composites := mapSet s.composites compositeId (hiddenEntry entry) }

/-- Lines 189–191 of `showComposite`: hide the current composite when it is
set and differs from the one being shown. -/
def hideCurrentUnless (s : HostState) (compositeId : String) : HostState :=
  match s.currentCompositeId with
  | some cid => if cid ≠ compositeId then hideComposite s cid else s
  | none => s

/-- `showComposite(compositeId)`: if the entry exists, hide the current
composite when it differs, then show the entry (display, visibility, layout
with the host container's bounds) and make it current. -/
def showComposite (s : HostState) (hostBounds : Dimension) (compositeId : String) :
    HostState :=
  match mapGet s.composites compositeId with
  | none => s
  | some _ =>
      let s1 := hideCurrentUnless s compositeId
      match mapGet s1.composites compositeId with
      | none => s1
      | some entry =>
          { s1 with
              composites := mapSet s1.composites compositeId (shownEntry hostBounds entry),
              currentCompositeId := some compositeId }

/-- Disposing an entry's `DisposableStore`.  The store holds the composite
(`disposables.add(composite)` at creation), so disposing a not-yet-disposed
store also disposes the composite; disposing an already-disposed store is a
no-op, as in `lifecycle.ts`. -/
def entryDisposeStore (e : CompositeEntry) : CompositeEntry :=
  if e.disposables.isDisposed then e
  else
    { e with
        disposables := { isDisposed := true },
        composite := { e.composite with disposed := true } }

/-- Teardown performed on each entry by `disposeComposite` and `dispose`:
`setVisible(false)`, dispose the store, `container.remove()`. -/
def teardownEntry (e : CompositeEntry) : CompositeEntry :=
  let e1 := { e with composite := { e.composite with visible := false } }
  let e2 := entryDisposeStore e1
  { e2 with container := { e2.container with attached := false } }

/-- `disposeComposite(compositeId)`: hide first when it is the current one,
then tear the entry down and delete it from the map.  The final state of the
torn-down entry is returned alongside for observation. -/
def disposeComposite (s : HostState) (compositeId : String) :
    HostState × Option CompositeEntry :=
  match mapGet s.composites compositeId with
  | none => (s, none)
  | some _ =>
      let s1 :=
        if s.currentCompositeId = some compositeId then
          { hideComposite s compositeId with currentCompositeId := none }
        else s
      match mapGet s1.composites compositeId with
      | none => (s1, none)
      | some entry =>
          ({ s1 with composites := mapDelete s1.composites compositeId },
           some (teardownEntry entry))

/-- `layout(dimension)`: forward the dimension to the current composite's
`layout` when a current id is set and present in the map; otherwise do
nothing. -/
def layout (s : HostState) (dimension : Dimension) : HostState :=
  match s.currentCompositeId with
  | none => s
  | some cid =>
      match mapGet s.composites cid with
      | none => s
      | some entry =>
          { s with
              composites := mapSet s.composites cid
                { entry with
                    composite := { entry.composite with
                        layouts := dimension :: entry.composite.layouts } } }

/-- `dispose()`: for every entry of the map, `setVisible(false)`, dispose its
store (which disposes the composite) and remove its container, then clear the
map.  The final states of the torn-down entries are returned alongside. -/
def dispose (s : HostState) : HostState × List (String × CompositeEntry) :=
  ({ s with composites := [] },
   s.composites.map (fun p => (p.1, teardownEntry p.2)))

/-- Outcome of `this.createComposite(descriptor)` (which calls
`descriptor.instantiate`): it may throw, return `undefined`, or return a fresh
composite. -/
inductive CreateOutcome
  | throws
  | returnsUndefined
  | ok
deriving DecidableEq, Repr

/-- Outcome of `composite.create(compositeContainer)`. -/
inductive CreateUIOutcome
  | throws
  | ok
deriving DecidableEq, Repr

/-- Environment of one `openComposite` call: whether the registry has a
descriptor for the id, how `createComposite` and `composite.create` behave,
and the host container's bounding rectangle used by `showComposite`. -/
structure OpenEnv where
  hasDescriptor : Bool
  createOutcome : CreateOutcome
  createUIOutcome : CreateUIOutcome
  hostBounds : Dimension
deriving DecidableEq, Repr

/-- Result of `openComposite`: the post state, the returned composite (or
`undefined`), and the final state of the locally created store and container
on the failure paths where they never reach the map. -/
structure OpenResult where
  state : HostState
  result : Option CompositeState
  orphanDisposables : Option DisposableStore
  orphanContainer : Option DomElem
deriving DecidableEq, Repr

/-- An `openComposite` result with no orphaned creation debris. -/
def mkResult (s : HostState) (r : Option CompositeState) : OpenResult :=
  { state := s, result := r, orphanDisposables := none, orphanContainer := none }

/-- Lines 43–53: when the requested composite is already current, show it and
return it if its entry is alive; delete the entry if it was disposed.  `inl`
is an early return, `inr` the state in which the method continues. -/
def openCompositeSamePath (env : OpenEnv) (s : HostState) (compositeId : String) :
    OpenResult ⊕ HostState :=
  if s.currentCompositeId = some compositeId then
    match mapGet s.composites compositeId with
    | some existing =>
        if existing.disposables.isDisposed then
          Sum.inr { s with composites := mapDelete s.composites compositeId }
        else
          let s' := showComposite s env.hostBounds compositeId
          Sum.inl (mkResult s' ((mapGet s'.composites compositeId).map (fun e => e.composite)))
    | none => Sum.inr s
  else Sum.inr s

/-- Lines 76–84: re-check for an existing entry after hiding the current
composite; show and return it if alive, delete it if disposed. -/
def openCompositeExistingPath (env : OpenEnv) (s : HostState) (compositeId : String) :
    OpenResult ⊕ HostState :=
  match mapGet s.composites compositeId with
  | some existing =>
      if existing.disposables.isDisposed then
        Sum.inr { s with composites := mapDelete s.composites compositeId }
      else
        let s' := showComposite s env.hostBounds compositeId
        Sum.inl (mkResult s' ((mapGet s'.composites compositeId).map (fun e => e.composite)))
  | none => Sum.inr s

/-- The `finally` block: always remove the id from the creating set. -/
def finallyClear (compositeId : String) (s : HostState) : HostState :=
  { s with creatingComposites := s.creatingComposites.filter (fun x => x != compositeId) }

/-- Lines 86–160: descriptor lookup, the creating-set mark, and the
`try`/`catch`/`finally` creation block of `openComposite`. -/
def openCompositeCreate (env : OpenEnv) (s : HostState) (compositeId : String) :
    OpenResult :=
  if env.hasDescriptor = false then
    mkResult s none
  else
    let s1 := { s with creatingComposites := compositeId :: s.creatingComposites }
    match env.createOutcome with
    | CreateOutcome.throws =>
        mkResult (finallyClear compositeId s1) none
    | CreateOutcome.returnsUndefined =>
        mkResult (finallyClear compositeId s1) none
    | CreateOutcome.ok =>
        let composite : CompositeState :=
          { tag := s1.nextTag, visible := false, disposed := false, layouts := [] }
        let s2 := { s1 with nextTag := s1.nextTag + 1 }
        let compositeContainer : DomElem :=
          { display := "none", height := "", attached := false }
        match env.createUIOutcome with
        | CreateUIOutcome.throws =>
            { state := finallyClear compositeId s2,
              result := none,
              orphanDisposables := some { isDisposed := true },
              orphanContainer := some compositeContainer }
        | CreateUIOutcome.ok =>
            let attachedContainer := { compositeContainer with attached := true }
            let entry : CompositeEntry :=
              { composite := composite, container := attachedContainer,
                disposables := { isDisposed := false } }
            let s3 := { s2 with composites := mapSet s2.composites compositeId entry }
            let s4 := showComposite s3 env.hostBounds compositeId
            { state := finallyClear compositeId s4,
              result := (mapGet s4.composites compositeId).map (fun e => e.composite),
              orphanDisposables := none,
              orphanContainer := none }

/-- The tail of `openComposite` after the current composite has been hidden:
the existing-entry re-check (lines 76–84) followed by creation. -/
def afterHide (env : OpenEnv) (s2 : HostState) (compositeId : String) : OpenResult :=
  match openCompositeExistingPath env s2 compositeId with
  | Sum.inl r => r
  | Sum.inr s3 => openCompositeCreate env s3 compositeId

/-- The tail of `openComposite` after the same-composite fast path: hide the
current composite if any (lines 56–58), then continue. -/
def afterSame (env : OpenEnv) (s1 : HostState) (compositeId : String) : OpenResult :=
  afterHide env
    (match s1.currentCompositeId with
     | some cid => hideComposite s1 cid
     | none => s1)
    compositeId

/-- `openComposite(compositeId)`: the concurrent-creation guard, the
same-composite fast path, hiding the current composite, the existing-entry
check, then creation. -/
def openComposite (env : OpenEnv) (s : HostState) (compositeId : String) : OpenResult :=
  if s.creatingComposites.contains compositeId then
    mkResult s none
  else
    match openCompositeSamePath env s compositeId with
    | Sum.inl r => r
    | Sum.inr s1 => afterSame env s1 compositeId

/-- The entry stored for an id whose creation just succeeded: a fresh
composite (visible, laid out once with the host bounds), a container attached
to the host container with display `block`, and a live store. -/
def freshOpenedEntry (tag : Nat) (b : Dimension) : CompositeEntry :=
  shownEntry b
    { composite := { tag := tag, visible := false, disposed := false, layouts := [] },
      container := { display := "none", height := "", attached := true },
      disposables := { isDisposed := false } }

end EmbeddedCompositeHost

namespace MobileSidebarWidget

/-- A sidebar view container as seen by the widget: its id and title (used for
the button's aria-label and the placeholder heading). -/
structure ViewContainer where
  id : String
  title : String
deriving DecidableEq, Repr

/-- Abstraction of `JSON.parse` applied to the stored pinned-viewlets string:
it throws, yields a non-array value, or yields an array (elements modelled by
the ids the widget reads off it). -/
inductive ParseResult
  | throwsError
  | nonArray
  | array (elems : List String)
deriving DecidableEq, Repr

/-- The fixed default pinned viewlets of `getPinnedViewletIds` (line 372). -/
def defaultPinnedViewlets : List String :=
  ["workbench.view.explorer", "workbench.view.search", "workbench.view.scm",
   "workbench.view.debug", "workbench.view.extensions"]

/-- `getPinnedViewletIds()`: read storage key
`workbench.activity.pinnedViewlets2` with fallback `"[]"`, parse it, return
the parsed array when it is a non-empty array, and the default list
otherwise (parse error, non-array, or empty array). -/
def getPinnedViewletIds (parse : String → ParseResult) (storedValue : Option String) :
    List String :=
  let pinnedString := storedValue.getD "[]"
  match parse pinnedString with
  | ParseResult.array pinned =>
      if pinned.length > 0 then pinned else defaultPinnedViewlets
  | _ => defaultPinnedViewlets

/-- Lines 114–122 of `createActivityBar`: the containers to display — pinned
ids resolved against the available sidebar containers, in pinned order, and
all available containers when none resolve. -/
def displayedContainers (pinnedViewletIds : List String)
    (allContainers : List ViewContainer) : List ViewContainer :=
  let viewContainers :=
    pinnedViewletIds.filterMap (fun id => allContainers.find? (fun c => c.id == id))
  if viewContainers.length = 0 then allContainers else viewContainers

/-- One activity-bar button: its aria-label and the viewlet id captured by its
click and keydown handlers. -/
structure ActivityButton where
  ariaLabel : String
  viewletId : String
deriving DecidableEq, Repr

/-- `createActivityBar()`: one button per displayed container, in order. -/
def createActivityBar (pinnedViewletIds : List String)
    (allContainers : List ViewContainer) : List ActivityButton :=
  (displayedContainers pinnedViewletIds allContainers).map
    (fun container => { ariaLabel := container.title, viewletId := container.id })

/-- The click handler of a button (line 181): the viewlet it shows. -/
def clickShows (button : ActivityButton) : String := button.viewletId

/-- The keydown handler of a button (lines 186–191): the viewlet it shows for
a given key, `none` when the key is neither Enter nor Space. -/
def keydownShows (button : ActivityButton) (key : String) : Option String :=
  if key = "Enter" ∨ key = " " then some button.viewletId else none

/-- Contents of the freshly created content wrapper after `showViewlet`. -/
inductive WrapperContent
  | empty
  | hostComposite
  | placeholderFor (title : String)
deriving DecidableEq, Repr

/-- The widget state `showViewlet` touches: the current viewlet id, the last
value stored under the last-active key, the embedded host (if any), and the
content wrapper. -/
structure WidgetState where
  currentViewletId : Option String
  storedLastActive : Option String
  embeddedHost : Option EmbeddedCompositeHost.HostState
  wrapper : WrapperContent
deriving DecidableEq, Repr

/-- Environment of one `showViewlet` call: whether
`instantiationService.createInstance` throws, the environment the fresh
embedded host's `openComposite` runs in, and the result of
`viewDescriptorService.getViewContainerById(viewletId)`. -/
structure ShowEnv where
  createInstanceThrows : Bool
  hostEnv : EmbeddedCompositeHost.OpenEnv
  viewContainerById : Option ViewContainer
deriving DecidableEq, Repr

/-- `showPlaceholder(wrapper, viewletId)`: set the wrapper's html to the
placeholder for the viewlet's container when the view descriptor service
knows one; otherwise do nothing. -/
def showPlaceholder (wrapper : WrapperContent) (viewContainerById : Option ViewContainer) :
    WrapperContent :=
  match viewContainerById with
  | some vc => WrapperContent.placeholderFor vc.title
  | none => wrapper

/-- Whether a wrapper currently shows placeholder content. -/
def WrapperContent.isPlaceholder : WrapperContent → Bool
  | WrapperContent.placeholderFor _ => true
  | _ => false

/-- `showViewlet(viewletId)`: return early when already current; otherwise
record the id, store it as last active, clear the content and dispose the
previous host, create a fresh wrapper, then try to create an embedded host
and open the composite in it — falling back to the placeholder when creation
throws or `openComposite` returns `undefined`.  Exceptions are caught, never
propagated: the function is total. -/
def showViewlet (env : ShowEnv) (w : WidgetState) (viewletId : String) : WidgetState :=
  if w.currentViewletId = some viewletId then w
  else
    let w1 : WidgetState :=
      { currentViewletId := some viewletId,
        storedLastActive := some viewletId,
        embeddedHost := none,
        wrapper := WrapperContent.empty }
    if env.createInstanceThrows then
      { w1 with wrapper := showPlaceholder w1.wrapper env.viewContainerById }
    else
      let opened :=
        EmbeddedCompositeHost.openComposite env.hostEnv EmbeddedCompositeHost.initial viewletId
      let w2 := { w1 with embeddedHost := some opened.state }
      match opened.result with
      | some _ => { w2 with wrapper := WrapperContent.hostComposite }
      | none => { w2 with wrapper := showPlaceholder w2.wrapper env.viewContainerById }

end MobileSidebarWidget

/-! ## Concrete sample states

Small concrete hosts, environments and widget states on which the theorems
below are instantiated. -/

def sampleDim : Dimension := { width := 320, height := 480 }

/-- An alive entry as produced by a successful open: shown and laid out once. -/
def sampleEntry : CompositeEntry :=
  { composite := { tag := 0, visible := true, disposed := false, layouts := [sampleDim] },
    container := { display := "block", height := "100%", attached := true },
    disposables := { isDisposed := false } }

/-- A second alive entry, currently hidden. -/
def sampleEntryB : CompositeEntry :=
  { composite := { tag := 1, visible := false, disposed := false, layouts := [sampleDim] },
    container := { display := "none", height := "100%", attached := true },
    disposables := { isDisposed := false } }

/-- A host with two live composites, currently showing the explorer. -/
def sampleHost : EmbeddedCompositeHost.HostState :=
  { composites := [("workbench.view.explorer", sampleEntry),
      ("workbench.view.search", sampleEntryB)],
    currentCompositeId := some "workbench.view.explorer",
    creatingComposites := [], nextTag := 2 }

/-- The same host while the search composite is still being created. -/
def sampleBusyHost : EmbeddedCompositeHost.HostState :=
  { composites := [("workbench.view.explorer", sampleEntry)],
    currentCompositeId := some "workbench.view.explorer",
    creatingComposites := ["workbench.view.search"], nextTag := 1 }

/-- An environment in which every step of creation succeeds. -/
def sampleEnvOk : EmbeddedCompositeHost.OpenEnv :=
  { hasDescriptor := true, createOutcome := EmbeddedCompositeHost.CreateOutcome.ok,
    createUIOutcome := EmbeddedCompositeHost.CreateUIOutcome.ok, hostBounds := sampleDim }

/-- An environment in which `composite.create` throws. -/
def sampleEnvUIThrows : EmbeddedCompositeHost.OpenEnv :=
  { hasDescriptor := true, createOutcome := EmbeddedCompositeHost.CreateOutcome.ok,
    createUIOutcome := EmbeddedCompositeHost.CreateUIOutcome.throws, hostBounds := sampleDim }

/-- An environment in which the registry has no descriptor for the id. -/
def sampleEnvNoDescriptor : EmbeddedCompositeHost.OpenEnv :=
  { hasDescriptor := false, createOutcome := EmbeddedCompositeHost.CreateOutcome.ok,
    createUIOutcome := EmbeddedCompositeHost.CreateUIOutcome.ok, hostBounds := sampleDim }

/-- Two registered sidebar view containers. -/
def sampleContainers : List MobileSidebarWidget.ViewContainer :=
  [{ id := "workbench.view.explorer", title := "Explorer" },
   { id := "workbench.view.search", title := "Search" }]

/-- A freshly constructed widget before any viewlet was shown. -/
def sampleWidget : MobileSidebarWidget.WidgetState :=
  { currentViewletId := none, storedLastActive := none, embeddedHost := none,
    wrapper := MobileSidebarWidget.WrapperContent.empty }

/-- A `showViewlet` environment whose `createInstance` throws but whose view
descriptor service knows the container. -/
def sampleShowEnvThrows : MobileSidebarWidget.ShowEnv :=
  { createInstanceThrows := true, hostEnv := sampleEnvOk,
    viewContainerById := some { id := "workbench.view.search", title := "Search" } }

/-- A `showViewlet` environment for an id unknown to both the pane composite
registry and the view descriptor service. -/
def sampleShowEnvUnknown : MobileSidebarWidget.ShowEnv :=
  { createInstanceThrows := false, hostEnv := sampleEnvNoDescriptor,
    viewContainerById := none }

/-- A sample `JSON.parse` abstraction for the pinned-viewlets strings: the
empty array, a one-element array, a number (valid JSON but not an array), and
everything else fails to parse. -/
def sampleParse (s : String) : MobileSidebarWidget.ParseResult :=
  if s = "[]" then MobileSidebarWidget.ParseResult.array []
  else if s = "[\"workbench.view.search\"]" then
    MobileSidebarWidget.ParseResult.array ["workbench.view.search"]
  else if s = "42" then MobileSidebarWidget.ParseResult.nonArray
  else MobileSidebarWidget.ParseResult.throwsError

/-! ## Basic lemmas about the map model -/

theorem mapGet_set_self {α : Type} (m : List (String × α)) (k : String) (v : α) :
    mapGet (mapSet m k v) k = some v := by
  induction m with
  | nil => simp [mapGet, mapSet]
  | cons hd tl ih =>
      obtain ⟨k', v'⟩ := hd
      by_cases h : k' = k
      · simp [mapGet, mapSet, h]
      · simp [mapGet, mapSet, h, ih]

theorem mapGet_set_ne {α : Type} (m : List (String × α)) (k k' : String) (v : α)
    (h : k' ≠ k) : mapGet (mapSet m k v) k' = mapGet m k' := by
  have hne : k ≠ k' := Ne.symm h
  induction m with
  | nil => simp [mapGet, mapSet, hne]
  | cons hd tl ih =>
      obtain ⟨k0, v0⟩ := hd
      by_cases h0 : k0 = k
      · subst h0
        simp [mapGet, mapSet, hne]
      · by_cases h1 : k0 = k'
        · simp [mapGet, mapSet, h0, h1, h]
        · simp [mapGet, mapSet, h0, h1, ih]

theorem mapGet_eq_none_of_not_mem {α : Type} (m : List (String × α)) (k : String)
    (h : k ∉ m.map Prod.fst) : mapGet m k = none := by
  induction m with
  | nil => rfl
  | cons hd tl ih =>
      obtain ⟨k0, v0⟩ := hd
      simp only [List.map_cons, List.mem_cons, not_or] at h
      have hk0 : k0 ≠ k := fun hh => h.1 hh.symm
      simp only [mapGet, if_neg hk0]
      exact ih h.2

theorem mapGet_delete_self {α : Type} (m : List (String × α)) (k : String)
    (huniq : (m.map Prod.fst).Nodup) : mapGet (mapDelete m k) k = none := by
  induction m with
  | nil => rfl
  | cons hd tl ih =>
      obtain ⟨k0, v0⟩ := hd
      simp only [List.map_cons, List.nodup_cons] at huniq
      by_cases h0 : k0 = k
      · subst h0
        simp only [mapDelete, if_pos rfl]
        exact mapGet_eq_none_of_not_mem tl k0 huniq.1
      · simp only [mapDelete, if_neg h0, mapGet, if_neg h0]
        exact ih huniq.2

theorem mapGet_delete_ne {α : Type} (m : List (String × α)) (k k' : String)
    (h : k' ≠ k) : mapGet (mapDelete m k) k' = mapGet m k' := by
  induction m with
  | nil => rfl
  | cons hd tl ih =>
      obtain ⟨k0, v0⟩ := hd
      by_cases h0 : k0 = k
      · subst h0
        simp [mapGet, mapDelete, Ne.symm h]
      · by_cases h1 : k0 = k'
        · simp [mapGet, mapDelete, h0, h1, h]
        · simp [mapGet, mapDelete, h0, h1, ih]

theorem mapSet_keys_of_get_some {α : Type} (m : List (String × α)) (k : String)
    (v e : α) (h : mapGet m k = some e) :
    (mapSet m k v).map Prod.fst = m.map Prod.fst := by
  induction m with
  | nil => simp [mapGet] at h
  | cons hd tl ih =>
      obtain ⟨k0, v0⟩ := hd
      by_cases h0 : k0 = k
      · simp [mapSet, h0]
      · simp only [mapGet, if_neg h0] at h
        simp [mapSet, h0, ih h]

theorem mapDelete_keys_sublist {α : Type} (m : List (String × α)) (k : String) :
    List.Sublist ((mapDelete m k).map Prod.fst) (m.map Prod.fst) := by
  induction m with
  | nil => simp [mapDelete]
  | cons hd tl ih =>
      obtain ⟨k0, v0⟩ := hd
      by_cases h0 : k0 = k
      · simp only [mapDelete, if_pos h0, List.map_cons]
        exact List.sublist_cons_of_sublist k0 (List.Sublist.refl _)
      · simp only [mapDelete, if_neg h0, List.map_cons]
        exact List.Sublist.cons₂ k0 ih

theorem mapDelete_nodup {α : Type} (m : List (String × α)) (k : String)
    (h : (m.map Prod.fst).Nodup) : ((mapDelete m k).map Prod.fst).Nodup :=
  List.Nodup.sublist (mapDelete_keys_sublist m k) h

theorem contains_filter_ne (l : List String) (id : String) :
    (l.filter (fun x => x != id)).contains id = false := by
  simp

/-! ## Structural lemmas about hiding and showing -/

namespace EmbeddedCompositeHost

theorem hiddenEntry_idem (e : CompositeEntry) :
    hiddenEntry (hiddenEntry e) = hiddenEntry e := rfl

theorem hideComposite_currentCompositeId (s : HostState) (cid : String) :
    (hideComposite s cid).currentCompositeId = s.currentCompositeId := by
  unfold hideComposite
  cases mapGet s.composites cid <;> rfl

theorem hideComposite_creating (s : HostState) (cid : String) :
    (hideComposite s cid).creatingComposites = s.creatingComposites := by
  unfold hideComposite
  cases mapGet s.composites cid <;> rfl

theorem hideComposite_nextTag (s : HostState) (cid : String) :
    (hideComposite s cid).nextTag = s.nextTag := by
  unfold hideComposite
  cases mapGet s.composites cid <;> rfl

theorem hideComposite_get_self (s : HostState) (cid : String) (e : CompositeEntry)
    (h : mapGet s.composites cid = some e) :
    mapGet (hideComposite s cid).composites cid = some (hiddenEntry e) := by
  unfold hideComposite
  rw [h]
  exact mapGet_set_self _ _ _

theorem hideComposite_get_ne (s : HostState) (cid k : String) (h : k ≠ cid) :
    mapGet (hideComposite s cid).composites k = mapGet s.composites k := by
  unfold hideComposite
  cases mapGet s.composites cid with
  | none => rfl
  | some e => exact mapGet_set_ne _ _ _ _ h

theorem hideComposite_preserves_hidden (s : HostState) (cid k : String)
    (e : CompositeEntry) (hget : mapGet s.composites k = some e)
    (hh : hiddenEntry e = e) :
    mapGet (hideComposite s cid).composites k = some e := by
  by_cases hk : k = cid
  · subst hk
    rw [hideComposite_get_self s k e hget, hh]
  · rw [hideComposite_get_ne s cid k hk, hget]

theorem hideCurrentUnless_currentCompositeId (s : HostState) (id : String) :
    (hideCurrentUnless s id).currentCompositeId = s.currentCompositeId := by
  cases h : s.currentCompositeId with
  | none => simp [hideCurrentUnless, h]
  | some cid =>
      by_cases hne : cid ≠ id
      · simp [hideCurrentUnless, h, hne, hideComposite_currentCompositeId]
      · simp [hideCurrentUnless, h, hne]

theorem hideCurrentUnless_creating (s : HostState) (id : String) :
    (hideCurrentUnless s id).creatingComposites = s.creatingComposites := by
  cases h : s.currentCompositeId with
  | none => simp [hideCurrentUnless, h]
  | some cid =>
      by_cases hne : cid ≠ id
      · simp [hideCurrentUnless, h, hne, hideComposite_creating]
      · simp [hideCurrentUnless, h, hne]

theorem hideCurrentUnless_nextTag (s : HostState) (id : String) :
    (hideCurrentUnless s id).nextTag = s.nextTag := by
  cases h : s.currentCompositeId with
  | none => simp [hideCurrentUnless, h]
  | some cid =>
      by_cases hne : cid ≠ id
      · simp [hideCurrentUnless, h, hne, hideComposite_nextTag]
      · simp [hideCurrentUnless, h, hne]

theorem hideCurrentUnless_get_self (s : HostState) (id : String) :
    mapGet (hideCurrentUnless s id).composites id = mapGet s.composites id := by
  cases h : s.currentCompositeId with
  | none => simp [hideCurrentUnless, h]
  | some cid =>
      by_cases hne : cid ≠ id
      · simp only [hideCurrentUnless, h, if_pos hne]
        exact hideComposite_get_ne s cid id (Ne.symm hne)
      · simp [hideCurrentUnless, h, hne]

theorem hideCurrentUnless_preserves_hidden (s : HostState) (id k : String)
    (e : CompositeEntry) (hget : mapGet s.composites k = some e)
    (hh : hiddenEntry e = e) :
    mapGet (hideCurrentUnless s id).composites k = some e := by
  cases h : s.currentCompositeId with
  | none => simp only [hideCurrentUnless, h]; exact hget
  | some cid =>
      by_cases hne : cid ≠ id
      · simp only [hideCurrentUnless, h, if_pos hne]
        exact hideComposite_preserves_hidden s cid k e hget hh
      · simp only [hideCurrentUnless, h, if_neg hne]
        exact hget

theorem hideCurrentUnless_hides_current (s : HostState) (id cid : String)
    (e : CompositeEntry) (hcur : s.currentCompositeId = some cid) (hne : cid ≠ id)
    (hget : mapGet s.composites cid = some e) :
    mapGet (hideCurrentUnless s id).composites cid = some (hiddenEntry e) := by
  simp only [hideCurrentUnless, hcur, if_pos hne]
  exact hideComposite_get_self s cid e hget

theorem showComposite_none (s : HostState) (b : Dimension) (id : String)
    (h : mapGet s.composites id = none) : showComposite s b id = s := by
  unfold showComposite
  rw [h]

theorem showComposite_spec (s : HostState) (b : Dimension) (id : String)
    (e : CompositeEntry) (h : mapGet s.composites id = some e) :
    showComposite s b id =
      { hideCurrentUnless s id with
          composites := mapSet (hideCurrentUnless s id).composites id (shownEntry b e),
          currentCompositeId := some id } := by
  unfold showComposite
  rw [h]
  simp only []
  rw [hideCurrentUnless_get_self s id, h]

theorem showComposite_get_self (s : HostState) (b : Dimension) (id : String)
    (e : CompositeEntry) (h : mapGet s.composites id = some e) :
    mapGet (showComposite s b id).composites id = some (shownEntry b e) := by
  rw [showComposite_spec s b id e h]
  exact mapGet_set_self _ _ _

theorem showComposite_current_of_get (s : HostState) (b : Dimension) (id : String)
    (e : CompositeEntry) (h : mapGet s.composites id = some e) :
    (showComposite s b id).currentCompositeId = some id := by
  rw [showComposite_spec s b id e h]

theorem showComposite_nextTag (s : HostState) (b : Dimension) (id : String) :
    (showComposite s b id).nextTag = s.nextTag := by
  cases h : mapGet s.composites id with
  | none => rw [showComposite_none s b id h]
  | some e =>
      rw [showComposite_spec s b id e h]
      exact hideCurrentUnless_nextTag s id

theorem showComposite_creating (s : HostState) (b : Dimension) (id : String) :
    (showComposite s b id).creatingComposites = s.creatingComposites := by
  cases h : mapGet s.composites id with
  | none => rw [showComposite_none s b id h]
  | some e =>
      rw [showComposite_spec s b id e h]
      exact hideCurrentUnless_creating s id

theorem showComposite_preserves_hidden (s : HostState) (b : Dimension) (id k : String)
    (e : CompositeEntry) (hk : k ≠ id) (hget : mapGet s.composites k = some e)
    (hh : hiddenEntry e = e) :
    mapGet (showComposite s b id).composites k = some e := by
  cases h : mapGet s.composites id with
  | none => rw [showComposite_none s b id h]; exact hget
  | some e2 =>
      rw [showComposite_spec s b id e2 h]
      simp only []
      rw [mapGet_set_ne _ _ _ _ hk]
      exact hideCurrentUnless_preserves_hidden s id k e hget hh

theorem showComposite_hides_current (s : HostState) (b : Dimension) (id cid : String)
    (eCur eId : CompositeEntry) (hcur : s.currentCompositeId = some cid)
    (hne : cid ≠ id) (hgetId : mapGet s.composites id = some eId)
    (hgetCur : mapGet s.composites cid = some eCur) :
    mapGet (showComposite s b id).composites cid = some (hiddenEntry eCur) := by
  rw [showComposite_spec s b id eId hgetId]
  simp only []
  rw [mapGet_set_ne _ _ _ _ hne]
  exact hideCurrentUnless_hides_current s id cid eCur hcur hne hgetCur

/-! ## Path lemmas for `openComposite` -/

theorem openCompositeSamePath_not_current (env : OpenEnv) (s : HostState) (id : String)
    (h : s.currentCompositeId ≠ some id) :
    openCompositeSamePath env s id = Sum.inr s := by
  unfold openCompositeSamePath
  rw [if_neg h]

theorem openCompositeSamePath_no_entry (env : OpenEnv) (s : HostState) (id : String)
    (hc : s.currentCompositeId = some id) (h : mapGet s.composites id = none) :
    openCompositeSamePath env s id = Sum.inr s := by
  unfold openCompositeSamePath
  rw [if_pos hc, h]

theorem openCompositeSamePath_disposed (env : OpenEnv) (s : HostState) (id : String)
    (e : CompositeEntry) (hc : s.currentCompositeId = some id)
    (hget : mapGet s.composites id = some e)
    (hdisp : e.disposables.isDisposed = true) :
    openCompositeSamePath env s id =
      Sum.inr { s with composites := mapDelete s.composites id } := by
  unfold openCompositeSamePath
  rw [if_pos hc, hget]
  simp [hdisp]

theorem openCompositeSamePath_alive (env : OpenEnv) (s : HostState) (id : String)
    (e : CompositeEntry) (hc : s.currentCompositeId = some id)
    (hget : mapGet s.composites id = some e)
    (halive : e.disposables.isDisposed = false) :
    openCompositeSamePath env s id =
      Sum.inl (mkResult (showComposite s env.hostBounds id)
        ((mapGet (showComposite s env.hostBounds id).composites id).map
          (fun x => x.composite))) := by
  unfold openCompositeSamePath
  rw [if_pos hc, hget]
  simp [halive]

theorem openCompositeExistingPath_none (env : OpenEnv) (s : HostState) (id : String)
    (h : mapGet s.composites id = none) :
    openCompositeExistingPath env s id = Sum.inr s := by
  unfold openCompositeExistingPath
  rw [h]

theorem openCompositeExistingPath_disposed (env : OpenEnv) (s : HostState) (id : String)
    (e : CompositeEntry) (hget : mapGet s.composites id = some e)
    (hdisp : e.disposables.isDisposed = true) :
    openCompositeExistingPath env s id =
      Sum.inr { s with composites := mapDelete s.composites id } := by
  unfold openCompositeExistingPath
  rw [hget]
  simp [hdisp]

theorem openCompositeExistingPath_alive (env : OpenEnv) (s : HostState) (id : String)
    (e : CompositeEntry) (hget : mapGet s.composites id = some e)
    (halive : e.disposables.isDisposed = false) :
    openCompositeExistingPath env s id =
      Sum.inl (mkResult (showComposite s env.hostBounds id)
        ((mapGet (showComposite s env.hostBounds id).composites id).map
          (fun x => x.composite))) := by
  unfold openCompositeExistingPath
  rw [hget]
  simp [halive]

theorem openCompositeCreate_nextTag_ok (env : OpenEnv) (s : HostState) (id : String)
    (hdesc : env.hasDescriptor = true) (hok : env.createOutcome = CreateOutcome.ok) :
    (openCompositeCreate env s id).state.nextTag = s.nextTag + 1 := by
  unfold openCompositeCreate
  rw [hdesc, if_neg (by simp : ¬(true = false)), hok]
  cases env.createUIOutcome with
  | throws => rfl
  | ok => simp only [finallyClear, showComposite_nextTag]

/-- Bundles the conclusions of the show-and-return fast path. -/
theorem openComposite_alive_aux (s : HostState) (b : Dimension) (id : String)
    (e : CompositeEntry) (hget : mapGet s.composites id = some e) :
    (mapGet (showComposite s b id).composites id).map (fun x => x.composite)
        = some (shownEntry b e).composite ∧
    mapGet (showComposite s b id).composites id = some (shownEntry b e) ∧
    (showComposite s b id).currentCompositeId = some id ∧
    (showComposite s b id).nextTag = s.nextTag ∧
    (showComposite s b id).creatingComposites = s.creatingComposites := by
  have h1 := showComposite_get_self s b id e hget
  exact ⟨by rw [h1]; rfl, h1, showComposite_current_of_get s b id e hget,
    showComposite_nextTag s b id, showComposite_creating s b id⟩

theorem hideComposite_none (s : HostState) (cid : String)
    (h : mapGet s.composites cid = none) : hideComposite s cid = s := by
  unfold hideComposite
  rw [h]

theorem hideComposite_keys (s : HostState) (cid : String) :
    (hideComposite s cid).composites.map Prod.fst = s.composites.map Prod.fst := by
  unfold hideComposite
  cases h : mapGet s.composites cid with
  | none => rfl
  | some e => exact mapSet_keys_of_get_some _ _ _ _ h

theorem openComposite_guard (env : OpenEnv) (s : HostState) (id : String)
    (h : s.creatingComposites.contains id = true) :
    openComposite env s id = mkResult s none := by
  unfold openComposite
  rw [h, if_pos rfl]

theorem openComposite_return (env : OpenEnv) (s : HostState) (id : String)
    (r : OpenResult) (hguard : s.creatingComposites.contains id = false)
    (hsame : openCompositeSamePath env s id = Sum.inl r) :
    openComposite env s id = r := by
  unfold openComposite
  rw [hguard, if_neg (by simp : ¬(false = true)), hsame]

theorem openComposite_continue (env : OpenEnv) (s s1 : HostState) (id : String)
    (hguard : s.creatingComposites.contains id = false)
    (hsame : openCompositeSamePath env s id = Sum.inr s1) :
    openComposite env s id = afterSame env s1 id := by
  unfold openComposite
  rw [hguard, if_neg (by simp : ¬(false = true)), hsame]

theorem afterSame_none (env : OpenEnv) (s1 : HostState) (id : String)
    (h : s1.currentCompositeId = none) :
    afterSame env s1 id = afterHide env s1 id := by
  unfold afterSame
  rw [h]

theorem afterSame_some (env : OpenEnv) (s1 : HostState) (id cid : String)
    (h : s1.currentCompositeId = some cid) :
    afterSame env s1 id = afterHide env (hideComposite s1 cid) id := by
  unfold afterSame
  rw [h]

theorem afterHide_return (env : OpenEnv) (s2 : HostState) (id : String)
    (r : OpenResult) (h : openCompositeExistingPath env s2 id = Sum.inl r) :
    afterHide env s2 id = r := by
  unfold afterHide
  rw [h]

theorem afterHide_continue (env : OpenEnv) (s2 s3 : HostState) (id : String)
    (h : openCompositeExistingPath env s2 id = Sum.inr s3) :
    afterHide env s2 id = openCompositeCreate env s3 id := by
  unfold afterHide
  rw [h]

/-- The show-and-return behaviour of `openComposite` on an id whose entry is
alive: the stored composite is shown and returned, nothing is instantiated. -/
theorem openComposite_alive (env : OpenEnv) (s : HostState) (id : String)
    (e : CompositeEntry)
    (hcreating : s.creatingComposites.contains id = false)
    (hget : mapGet s.composites id = some e)
    (halive : e.disposables.isDisposed = false) :
    (openComposite env s id).result = some (shownEntry env.hostBounds e).composite ∧
    mapGet (openComposite env s id).state.composites id = some (shownEntry env.hostBounds e) ∧
    (openComposite env s id).state.currentCompositeId = some id ∧
    (openComposite env s id).state.nextTag = s.nextTag ∧
    (openComposite env s id).state.creatingComposites = s.creatingComposites ∧
    (openComposite env s id).orphanDisposables = none ∧
    (openComposite env s id).orphanContainer = none := by
  by_cases hc : s.currentCompositeId = some id
  · have hopen := openComposite_return env s id _ hcreating
      (openCompositeSamePath_alive env s id e hc hget halive)
    obtain ⟨h1, h2, h3, h4, h5⟩ := openComposite_alive_aux s env.hostBounds id e hget
    rw [hopen]
    exact ⟨h1, h2, h3, h4, h5, rfl, rfl⟩
  · have hcont := openComposite_continue env s s id hcreating
      (openCompositeSamePath_not_current env s id hc)
    cases hcur : s.currentCompositeId with
    | none =>
        have hopen : openComposite env s id =
            mkResult (showComposite s env.hostBounds id)
              ((mapGet (showComposite s env.hostBounds id).composites id).map
                (fun x => x.composite)) := by
          rw [hcont, afterSame_none env s id hcur]
          exact afterHide_return env s id _ (openCompositeExistingPath_alive env s id e hget halive)
        obtain ⟨h1, h2, h3, h4, h5⟩ := openComposite_alive_aux s env.hostBounds id e hget
        rw [hopen]
        exact ⟨h1, h2, h3, h4, h5, rfl, rfl⟩
    | some cid =>
        have hne : id ≠ cid := by
          intro hh
          exact hc (by rw [hh]; exact hcur)
        have hget2 : mapGet (hideComposite s cid).composites id = some e := by
          rw [hideComposite_get_ne s cid id hne]
          exact hget
        have hopen : openComposite env s id =
            mkResult (showComposite (hideComposite s cid) env.hostBounds id)
              ((mapGet (showComposite (hideComposite s cid) env.hostBounds id).composites id).map
                (fun x => x.composite)) := by
          rw [hcont, afterSame_some env s id cid hcur]
          exact afterHide_return env _ id _
            (openCompositeExistingPath_alive env (hideComposite s cid) id e hget2 halive)
        obtain ⟨h1, h2, h3, h4, h5⟩ :=
          openComposite_alive_aux (hideComposite s cid) env.hostBounds id e hget2
        rw [hopen]
        refine ⟨h1, h2, h3, ?_, ?_, rfl, rfl⟩
        · show (showComposite (hideComposite s cid) env.hostBounds id).nextTag = s.nextTag
          rw [h4, hideComposite_nextTag]
        · show (showComposite (hideComposite s cid) env.hostBounds id).creatingComposites
            = s.creatingComposites
          rw [h5, hideComposite_creating]

/-- When the id has no entry and nobody is creating it, `openComposite` falls
through to the creation phase on a state that still has no entry for the id
and agrees with the start state on the tag counter and creating set. -/
theorem openComposite_no_entry_to_create (env : OpenEnv) (s : HostState) (id : String)
    (hcreating : s.creatingComposites.contains id = false)
    (hget : mapGet s.composites id = none) :
    ∃ s3 : HostState, openComposite env s id = openCompositeCreate env s3 id ∧
      mapGet s3.composites id = none ∧ s3.nextTag = s.nextTag ∧
      s3.creatingComposites = s.creatingComposites ∧
      s3.currentCompositeId = s.currentCompositeId := by
  by_cases hc : s.currentCompositeId = some id
  · have hcont := openComposite_continue env s s id hcreating
      (openCompositeSamePath_no_entry env s id hc hget)
    refine ⟨s, ?_, hget, rfl, rfl, rfl⟩
    rw [hcont, afterSame_some env s id id hc, hideComposite_none s id hget]
    exact afterHide_continue env s s id (openCompositeExistingPath_none env s id hget)
  · have hcont := openComposite_continue env s s id hcreating
      (openCompositeSamePath_not_current env s id hc)
    cases hcur : s.currentCompositeId with
    | none =>
        refine ⟨s, ?_, hget, rfl, rfl, hcur⟩
        rw [hcont, afterSame_none env s id hcur]
        exact afterHide_continue env s s id (openCompositeExistingPath_none env s id hget)
    | some cid =>
        have hne : id ≠ cid := by
          intro hh
          exact hc (by rw [hh]; exact hcur)
        have hget2 : mapGet (hideComposite s cid).composites id = none := by
          rw [hideComposite_get_ne s cid id hne]
          exact hget
        refine ⟨hideComposite s cid, ?_, hget2, hideComposite_nextTag s cid,
          hideComposite_creating s cid, by rw [hideComposite_currentCompositeId, hcur]⟩
        rw [hcont, afterSame_some env s id cid hcur]
        exact afterHide_continue env _ _ id
          (openCompositeExistingPath_none env (hideComposite s cid) id hget2)

/-- Same fall-through when the map holds no entry for the id that is still
alive (no entry, or a disposed one that gets deleted on the way). -/
theorem openComposite_dead_to_create (env : OpenEnv) (s : HostState) (id : String)
    (hcreating : s.creatingComposites.contains id = false)
    (hWF : (s.composites.map Prod.fst).Nodup)
    (hdead : ∀ e, mapGet s.composites id = some e → e.disposables.isDisposed = true) :
    ∃ s3 : HostState, openComposite env s id = openCompositeCreate env s3 id ∧
      mapGet s3.composites id = none ∧ s3.nextTag = s.nextTag ∧
      s3.creatingComposites = s.creatingComposites := by
  cases hget : mapGet s.composites id with
  | none =>
      obtain ⟨s3, h1, h2, h3, h4, h5⟩ := openComposite_no_entry_to_create env s id hcreating hget
      exact ⟨s3, h1, h2, h3, h4⟩
  | some e =>
      have hdisp := hdead e hget
      by_cases hc : s.currentCompositeId = some id
      · have hcont := openComposite_continue env s _ id hcreating
          (openCompositeSamePath_disposed env s id e hc hget hdisp)
        have hdel : mapGet (mapDelete s.composites id) id = none :=
          mapGet_delete_self s.composites id hWF
        refine ⟨{ s with composites := mapDelete s.composites id }, ?_, hdel, rfl, rfl⟩
        rw [hcont,
          afterSame_some env { s with composites := mapDelete s.composites id } id id hc,
          hideComposite_none { s with composites := mapDelete s.composites id } id hdel]
        exact afterHide_continue env _ _ id
          (openCompositeExistingPath_none env
            { s with composites := mapDelete s.composites id } id hdel)
      · have hcont := openComposite_continue env s s id hcreating
          (openCompositeSamePath_not_current env s id hc)
        cases hcur : s.currentCompositeId with
        | none =>
            have hdel : mapGet (mapDelete s.composites id) id = none :=
              mapGet_delete_self s.composites id hWF
            refine ⟨{ s with composites := mapDelete s.composites id }, ?_, hdel, rfl, rfl⟩
            rw [hcont, afterSame_none env s id hcur]
            exact afterHide_continue env s _ id
              (openCompositeExistingPath_disposed env s id e hget hdisp)
        | some cid =>
            have hne : id ≠ cid := by
              intro hh
              exact hc (by rw [hh]; exact hcur)
            have hget2 : mapGet (hideComposite s cid).composites id = some e := by
              rw [hideComposite_get_ne s cid id hne]
              exact hget
            have hWF2 : ((hideComposite s cid).composites.map Prod.fst).Nodup := by
              rw [hideComposite_keys]
              exact hWF
            have hdel : mapGet (mapDelete (hideComposite s cid).composites id) id = none :=
              mapGet_delete_self _ id hWF2
            refine ⟨{ hideComposite s cid with
                composites := mapDelete (hideComposite s cid).composites id }, ?_, hdel,
              hideComposite_nextTag s cid, hideComposite_creating s cid⟩
            rw [hcont, afterSame_some env s id cid hcur]
            exact afterHide_continue env _ _ id
              (openCompositeExistingPath_disposed env (hideComposite s cid) id e hget2 hdisp)

theorem openCompositeCreate_no_descriptor (env : OpenEnv) (s : HostState) (id : String)
    (h : env.hasDescriptor = false) :
    openCompositeCreate env s id = mkResult s none := by
  unfold openCompositeCreate
  rw [h, if_pos rfl]

theorem openCompositeCreate_success (env : OpenEnv) (s : HostState) (id : String)
    (hdesc : env.hasDescriptor = true) (hok : env.createOutcome = CreateOutcome.ok)
    (hui : env.createUIOutcome = CreateUIOutcome.ok) :
    mapGet (openCompositeCreate env s id).state.composites id
        = some (freshOpenedEntry s.nextTag env.hostBounds) ∧
    (openCompositeCreate env s id).result
        = some (freshOpenedEntry s.nextTag env.hostBounds).composite ∧
    (openCompositeCreate env s id).state.currentCompositeId = some id ∧
    (openCompositeCreate env s id).state.creatingComposites.contains id = false ∧
    (openCompositeCreate env s id).orphanDisposables = none ∧
    (openCompositeCreate env s id).orphanContainer = none := by
  unfold openCompositeCreate
  rw [hdesc, if_neg (by simp : ¬(true = false)), hok, hui]
  simp only [finallyClear]
  have hgetNew :
      mapGet (mapSet s.composites id
        { composite := { tag := s.nextTag, visible := false, disposed := false, layouts := [] },
          container := { display := "none", height := "", attached := true },
          disposables := { isDisposed := false } }) id
      = some
        { composite := { tag := s.nextTag, visible := false, disposed := false, layouts := [] },
          container := { display := "none", height := "", attached := true },
          disposables := { isDisposed := false } } :=
    mapGet_set_self _ _ _
  refine ⟨?_, ?_, ?_, ?_, trivial, trivial⟩
  · exact showComposite_get_self _ env.hostBounds id _ hgetNew
  · rw [showComposite_get_self _ env.hostBounds id _ hgetNew]
    rfl
  · exact showComposite_current_of_get _ env.hostBounds id _ hgetNew
  · rw [showComposite_creating]
    exact contains_filter_ne _ id

theorem openCompositeCreate_ui_throws (env : OpenEnv) (s : HostState) (id : String)
    (hdesc : env.hasDescriptor = true) (hok : env.createOutcome = CreateOutcome.ok)
    (hui : env.createUIOutcome = CreateUIOutcome.throws) :
    (openCompositeCreate env s id).result = none ∧
    (openCompositeCreate env s id).orphanDisposables = some { isDisposed := true } ∧
    (openCompositeCreate env s id).orphanContainer
        = some { display := "none", height := "", attached := false } ∧
    (openCompositeCreate env s id).state.composites = s.composites ∧
    (openCompositeCreate env s id).state.creatingComposites.contains id = false := by
  unfold openCompositeCreate
  rw [hdesc, if_neg (by simp : ¬(true = false)), hok, hui]
  refine ⟨rfl, rfl, rfl, rfl, ?_⟩
  exact contains_filter_ne _ id

theorem openCompositeCreate_abort (env : OpenEnv) (s : HostState) (id : String)
    (hdesc : env.hasDescriptor = true)
    (hno : env.createOutcome = CreateOutcome.throws ∨
      env.createOutcome = CreateOutcome.returnsUndefined) :
    (openCompositeCreate env s id).result = none ∧
    (openCompositeCreate env s id).state.composites = s.composites ∧
    (openCompositeCreate env s id).state.creatingComposites.contains id = false ∧
    (openCompositeCreate env s id).orphanDisposables = none ∧
    (openCompositeCreate env s id).orphanContainer = none := by
  unfold openCompositeCreate
  rw [hdesc, if_neg (by simp : ¬(true = false))]
  rcases hno with h | h <;> rw [h] <;>
    exact ⟨rfl, rfl, contains_filter_ne _ id, rfl, rfl⟩

theorem openCompositeCreate_preserves_hidden (env : OpenEnv) (s : HostState)
    (id k : String) (e : CompositeEntry) (hk : k ≠ id)
    (hget : mapGet s.composites k = some e) (hh : hiddenEntry e = e) :
    mapGet (openCompositeCreate env s id).state.composites k = some e := by
  unfold openCompositeCreate
  cases hdesc : env.hasDescriptor with
  | false => exact hget
  | true =>
      rw [if_neg (by simp : ¬(true = false))]
      cases hco : env.createOutcome with
      | throws => exact hget
      | returnsUndefined => exact hget
      | ok =>
          cases hui : env.createUIOutcome with
          | throws => exact hget
          | ok =>
              simp only [finallyClear]
              apply showComposite_preserves_hidden _ env.hostBounds id k e hk _ hh
              rw [show (mapGet (mapSet s.composites id
                { composite :=
                    { tag := s.nextTag, visible := false, disposed := false, layouts := [] },
                  container := { display := "none", height := "", attached := true },
                  disposables := { isDisposed := false } }) k)
                = mapGet s.composites k from mapGet_set_ne _ _ _ _ hk]
              exact hget

end EmbeddedCompositeHost

/-! ## The claims -/

open EmbeddedCompositeHost MobileSidebarWidget

/-- C1: Create-on-demand — when `openComposite` is called and the host already
holds a non-disposed entry for the id, that entry is shown (made current,
visible, displayed) and its stored composite is returned with no new
instantiation (the tag counter is unchanged); a new composite is instantiated
from the registry descriptor only when no non-disposed entry exists, in which
case the tag counter advances. -/
theorem c1_create_on_demand :
    (∀ (env : OpenEnv) (s : HostState) (id : String) (e : CompositeEntry),
      s.creatingComposites.contains id = false →
      mapGet s.composites id = some e →
      e.disposables.isDisposed = false →
      (openComposite env s id).result = some (shownEntry env.hostBounds e).composite ∧
      mapGet (openComposite env s id).state.composites id
          = some (shownEntry env.hostBounds e) ∧
      (openComposite env s id).state.currentCompositeId = some id ∧
      (openComposite env s id).state.nextTag = s.nextTag) ∧
    (∀ (env : OpenEnv) (s : HostState) (id : String),
      s.creatingComposites.contains id = false →
      mapGet s.composites id = none →
      env.hasDescriptor = true →
      env.createOutcome = CreateOutcome.ok →
      (openComposite env s id).state.nextTag = s.nextTag + 1) := by
  constructor
  · intro env s id e h1 h2 h3
    obtain ⟨r1, r2, r3, r4, _⟩ := openComposite_alive env s id e h1 h2 h3
    exact ⟨r1, r2, r3, r4⟩
  · intro env s id h1 h2 h3 h4
    obtain ⟨s3, heq, _, ht, _, _⟩ := openComposite_no_entry_to_create env s id h1 h2
    rw [heq, openCompositeCreate_nextTag_ok env s3 id h3 h4, ht]

/-- Witness for C1 on a concrete host: reopening the shown explorer returns
the stored composite, and opening an absent id advances the tag counter. -/
theorem c1_create_on_demand_witness :
    (sampleHost.creatingComposites.contains "workbench.view.explorer" = false ∧
      mapGet sampleHost.composites "workbench.view.explorer" = some sampleEntry ∧
      sampleEntry.disposables.isDisposed = false ∧
      ((openComposite sampleEnvOk sampleHost "workbench.view.explorer").result
          = some (shownEntry sampleEnvOk.hostBounds sampleEntry).composite ∧
        mapGet (openComposite sampleEnvOk sampleHost
            "workbench.view.explorer").state.composites "workbench.view.explorer"
          = some (shownEntry sampleEnvOk.hostBounds sampleEntry) ∧
        (openComposite sampleEnvOk sampleHost
            "workbench.view.explorer").state.currentCompositeId
          = some "workbench.view.explorer" ∧
        (openComposite sampleEnvOk sampleHost "workbench.view.explorer").state.nextTag
          = sampleHost.nextTag)) ∧
    (sampleHost.creatingComposites.contains "workbench.view.scm" = false ∧
      mapGet sampleHost.composites "workbench.view.scm" = none ∧
      (openComposite sampleEnvOk sampleHost "workbench.view.scm").state.nextTag
          = sampleHost.nextTag + 1) :=
  ⟨⟨rfl, by decide, rfl,
    c1_create_on_demand.1 sampleEnvOk sampleHost "workbench.view.explorer" sampleEntry
      rfl (by decide) rfl⟩,
   ⟨rfl, by decide,
    c1_create_on_demand.2 sampleEnvOk sampleHost "workbench.view.scm"
      rfl (by decide) rfl rfl⟩⟩

/-- C6: Concurrent-creation guard — entering `openComposite` while the id is
already in the creating set returns `undefined` immediately and leaves the
whole state unchanged (nothing hidden, instantiated or stored). -/
theorem c6_concurrent_creation_guard :
    ∀ (env : OpenEnv) (s : HostState) (id : String),
      s.creatingComposites.contains id = true →
      openComposite env s id = mkResult s none :=
  fun env s id h => openComposite_guard env s id h

/-- Witness for C6 on a host that is mid-creation of the search composite. -/
theorem c6_concurrent_creation_guard_witness :
    sampleBusyHost.creatingComposites.contains "workbench.view.search" = true ∧
    openComposite sampleEnvOk sampleBusyHost "workbench.view.search"
        = mkResult sampleBusyHost none :=
  ⟨by decide,
   c6_concurrent_creation_guard sampleEnvOk sampleBusyHost "workbench.view.search" (by decide)⟩

/-- C2: Show/hide without destroy — switching from a shown composite to a
different one (via `showComposite` or `openComposite`) only hides the previous
composite: `setVisible(false)` and display `none`; its entry stays in the
map with its store undisposed and its container still attached. -/
theorem c2_show_hide_without_destroy :
    (∀ (s : HostState) (b : Dimension) (id cid : String) (eId eOld : CompositeEntry),
      s.currentCompositeId = some cid → cid ≠ id →
      mapGet s.composites id = some eId →
      mapGet s.composites cid = some eOld →
      mapGet (showComposite s b id).composites cid = some (hiddenEntry eOld) ∧
      (hiddenEntry eOld).composite.visible = false ∧
      (hiddenEntry eOld).container.display = "none" ∧
      (hiddenEntry eOld).disposables = eOld.disposables ∧
      (hiddenEntry eOld).container.attached = eOld.container.attached) ∧
    (∀ (env : OpenEnv) (s : HostState) (id cid : String) (eOld : CompositeEntry),
      s.creatingComposites.contains id = false →
      s.currentCompositeId = some cid → cid ≠ id →
      mapGet s.composites cid = some eOld →
      mapGet (openComposite env s id).state.composites cid = some (hiddenEntry eOld)) := by
  constructor
  · intro s b id cid eId eOld hcur hne hgetId hgetCur
    exact ⟨showComposite_hides_current s b id cid eOld eId hcur hne hgetId hgetCur,
      rfl, rfl, rfl, rfl⟩
  · intro env s id cid eOld hcreating hcur hne hgetCur
    have hcne : s.currentCompositeId ≠ some id := by
      rw [hcur]
      intro hh
      exact hne (Option.some.inj hh)
    have hcont := openComposite_continue env s s id hcreating
      (openCompositeSamePath_not_current env s id hcne)
    rw [hcont, afterSame_some env s id cid hcur]
    have hhid : mapGet (hideComposite s cid).composites cid = some (hiddenEntry eOld) :=
      hideComposite_get_self s cid eOld hgetCur
    have hidem : hiddenEntry (hiddenEntry eOld) = hiddenEntry eOld := hiddenEntry_idem eOld
    cases hget2 : mapGet (hideComposite s cid).composites id with
    | none =>
        rw [afterHide_continue env _ _ id
          (openCompositeExistingPath_none env (hideComposite s cid) id hget2)]
        exact openCompositeCreate_preserves_hidden env (hideComposite s cid) id cid
          (hiddenEntry eOld) hne hhid hidem
    | some e2 =>
        cases hd : e2.disposables.isDisposed with
        | true =>
            rw [afterHide_continue env _ _ id
              (openCompositeExistingPath_disposed env (hideComposite s cid) id e2 hget2 hd)]
            apply openCompositeCreate_preserves_hidden env _ id cid (hiddenEntry eOld) hne _ hidem
            show mapGet (mapDelete (hideComposite s cid).composites id) cid
                = some (hiddenEntry eOld)
            rw [mapGet_delete_ne _ id cid hne]
            exact hhid
        | false =>
            rw [afterHide_return env _ id _
              (openCompositeExistingPath_alive env (hideComposite s cid) id e2 hget2 hd)]
            exact showComposite_preserves_hidden (hideComposite s cid) env.hostBounds id cid
              (hiddenEntry eOld) hne hhid hidem

/-- Witness for C2: switching the sample host from the explorer to the search
composite hides the explorer entry but keeps it, undisposed and attached. -/
theorem c2_show_hide_without_destroy_witness :
    (sampleHost.currentCompositeId = some "workbench.view.explorer" ∧
      mapGet (showComposite sampleHost sampleDim "workbench.view.search").composites
          "workbench.view.explorer" = some (hiddenEntry sampleEntry) ∧
      (hiddenEntry sampleEntry).composite.visible = false ∧
      (hiddenEntry sampleEntry).container.display = "none" ∧
      (hiddenEntry sampleEntry).disposables = sampleEntry.disposables ∧
      (hiddenEntry sampleEntry).container.attached = sampleEntry.container.attached) ∧
    mapGet (openComposite sampleEnvOk sampleHost
        "workbench.view.search").state.composites "workbench.view.explorer"
      = some (hiddenEntry sampleEntry) :=
  ⟨⟨rfl,
    (c2_show_hide_without_destroy.1 sampleHost sampleDim "workbench.view.search"
      "workbench.view.explorer" sampleEntryB sampleEntry rfl (by decide)
      (by decide) (by decide)).1,
    rfl, rfl, rfl, rfl⟩,
   c2_show_hide_without_destroy.2 sampleEnvOk sampleHost "workbench.view.search"
     "workbench.view.explorer" sampleEntry rfl rfl (by decide) (by decide)⟩

/-- C3: Safe teardown — `dispose` empties the composites map and, for every
stored entry, sets the composite invisible, disposes the entry's store (which
disposes the composite itself when the store was still live) and detaches the
entry's container. -/
theorem c3_safe_teardown :
    (∀ s : HostState,
      (dispose s).1.composites = [] ∧
      (dispose s).2 = s.composites.map (fun p => (p.1, teardownEntry p.2))) ∧
    (∀ (s : HostState) (k : String) (e : CompositeEntry),
      (k, e) ∈ s.composites →
      (teardownEntry e).composite.visible = false ∧
      (teardownEntry e).disposables.isDisposed = true ∧
      (teardownEntry e).container.attached = false ∧
      (e.disposables.isDisposed = false → (teardownEntry e).composite.disposed = true)) := by
  constructor
  · intro s
    exact ⟨rfl, rfl⟩
  · intro s k e hmem
    by_cases hd : e.disposables.isDisposed = true
    · refine ⟨?_, ?_, ?_, ?_⟩ <;> simp [teardownEntry, entryDisposeStore, hd]
    · refine ⟨?_, ?_, ?_, ?_⟩ <;>
        simp [teardownEntry, entryDisposeStore, Bool.not_eq_true _ ▸ hd]

/-- Witness for C3 on the sample host with two live entries. -/
theorem c3_safe_teardown_witness :
    ((dispose sampleHost).1.composites = [] ∧
      (dispose sampleHost).2
        = sampleHost.composites.map (fun p => (p.1, teardownEntry p.2))) ∧
    (("workbench.view.explorer", sampleEntry) ∈ sampleHost.composites ∧
      (teardownEntry sampleEntry).composite.visible = false ∧
      (teardownEntry sampleEntry).disposables.isDisposed = true ∧
      (teardownEntry sampleEntry).container.attached = false ∧
      (sampleEntry.disposables.isDisposed = false →
        (teardownEntry sampleEntry).composite.disposed = true)) :=
  ⟨c3_safe_teardown.1 sampleHost,
   ⟨by decide,
    c3_safe_teardown.2 sampleHost "workbench.view.explorer" sampleEntry (by decide)⟩⟩

/-- C5: Atomicity on creation failure — when `composite.create` throws during
`openComposite` (and no live entry pre-empted creation), the locally created
store ends up disposed, the locally created container is not in the document,
the map holds no entry for the id, the id is no longer in the creating set,
and `undefined` is returned. -/
theorem c5_creation_failure_atomicity :
    ∀ (env : OpenEnv) (s : HostState) (id : String),
      s.creatingComposites.contains id = false →
      (s.composites.map Prod.fst).Nodup →
      (mapGet s.composites id = none ∨
        ∃ e, mapGet s.composites id = some e ∧ e.disposables.isDisposed = true) →
      env.hasDescriptor = true →
      env.createOutcome = CreateOutcome.ok →
      env.createUIOutcome = CreateUIOutcome.throws →
      (openComposite env s id).result = none ∧
      mapGet (openComposite env s id).state.composites id = none ∧
      (openComposite env s id).state.creatingComposites.contains id = false ∧
      (openComposite env s id).orphanDisposables = some { isDisposed := true } ∧
      (openComposite env s id).orphanContainer
          = some { display := "none", height := "", attached := false } := by
  intro env s id h1 hWF hdead h4 h5 h6
  have hdead' : ∀ e, mapGet s.composites id = some e → e.disposables.isDisposed = true := by
    intro e he
    rcases hdead with h | ⟨e', he', hd⟩
    · rw [he] at h
      simp at h
    · rw [he] at he'
      have hee := Option.some.inj he'
      rw [hee]
      exact hd
  obtain ⟨s3, heq, hg3, _, hcre3⟩ := openComposite_dead_to_create env s id h1 hWF hdead'
  obtain ⟨r1, r2, r3, r4, r5⟩ := openCompositeCreate_ui_throws env s3 id h4 h5 h6
  rw [heq]
  refine ⟨r1, ?_, r5, r2, r3⟩
  rw [r4]
  exact hg3

/-- Witness for C5: creating the scm composite on the sample host with a
throwing `composite.create`. -/
theorem c5_creation_failure_atomicity_witness :
    (sampleHost.creatingComposites.contains "workbench.view.scm" = false ∧
      mapGet sampleHost.composites "workbench.view.scm" = none ∧
      sampleEnvUIThrows.createUIOutcome = CreateUIOutcome.throws) ∧
    ((openComposite sampleEnvUIThrows sampleHost "workbench.view.scm").result = none ∧
      mapGet (openComposite sampleEnvUIThrows sampleHost
          "workbench.view.scm").state.composites "workbench.view.scm" = none ∧
      (openComposite sampleEnvUIThrows sampleHost
          "workbench.view.scm").state.creatingComposites.contains "workbench.view.scm"
        = false ∧
      (openComposite sampleEnvUIThrows sampleHost
          "workbench.view.scm").orphanDisposables = some { isDisposed := true } ∧
      (openComposite sampleEnvUIThrows sampleHost "workbench.view.scm").orphanContainer
        = some { display := "none", height := "", attached := false }) :=
  ⟨⟨rfl, by decide, rfl⟩,
   c5_creation_failure_atomicity sampleEnvUIThrows sampleHost "workbench.view.scm"
     rfl (by decide) (Or.inl (by decide)) rfl rfl rfl⟩

/-- C7: Layout propagation — `layout` forwards the dimension to the current
composite exactly when a current id is set and present in the map, touches no
other entry, and does nothing at all otherwise. -/
theorem c7_layout_propagation :
    (∀ (s : HostState) (d : Dimension) (cid : String) (e : CompositeEntry),
      s.currentCompositeId = some cid →
      mapGet s.composites cid = some e →
      mapGet (layout s d).composites cid
          = some { e with composite :=
              { e.composite with layouts := d :: e.composite.layouts } }) ∧
    (∀ (s : HostState) (d : Dimension) (cid k : String) (e : CompositeEntry),
      s.currentCompositeId = some cid →
      mapGet s.composites cid = some e →
      k ≠ cid →
      mapGet (layout s d).composites k = mapGet s.composites k) ∧
    (∀ (s : HostState) (d : Dimension),
      s.currentCompositeId = none → layout s d = s) ∧
    (∀ (s : HostState) (d : Dimension) (cid : String),
      s.currentCompositeId = some cid →
      mapGet s.composites cid = none → layout s d = s) := by
  refine ⟨?_, ?_, ?_, ?_⟩
  · intro s d cid e hcur hget
    simp only [layout, hcur, hget]
    exact mapGet_set_self _ _ _
  · intro s d cid k e hcur hget hk
    simp only [layout, hcur, hget]
    exact mapGet_set_ne _ _ _ _ hk
  · intro s d hcur
    simp only [layout, hcur]
  · intro s d cid hcur hget
    simp only [layout, hcur, hget]

/-- Witness for C7 on the sample host: a layout reaches only the explorer. -/
theorem c7_layout_propagation_witness :
    (sampleHost.currentCompositeId = some "workbench.view.explorer" ∧
      mapGet (layout sampleHost { width := 640, height := 360 }).composites
          "workbench.view.explorer"
        = some { sampleEntry with composite :=
            { sampleEntry.composite with
                layouts := { width := 640, height := 360 } :: sampleEntry.composite.layouts } } ∧
      mapGet (layout sampleHost { width := 640, height := 360 }).composites
          "workbench.view.search" = mapGet sampleHost.composites "workbench.view.search") ∧
    layout { sampleHost with currentCompositeId := none }
        { width := 640, height := 360 }
      = { sampleHost with currentCompositeId := none } :=
  ⟨⟨rfl,
    c7_layout_propagation.1 sampleHost { width := 640, height := 360 }
      "workbench.view.explorer" sampleEntry rfl (by decide),
    c7_layout_propagation.2.1 sampleHost { width := 640, height := 360 }
      "workbench.view.explorer" "workbench.view.search" sampleEntry rfl (by decide)
      (by decide)⟩,
   c7_layout_propagation.2.2.1 { sampleHost with currentCompositeId := none }
     { width := 640, height := 360 } rfl⟩

/-- C10: Caller-chosen container — a composite successfully created by
`openComposite` is stored with its container attached to the element that was
passed to the host's constructor (the only `appendChild` in the host targets
that element). -/
theorem c10_caller_chosen_container :
    ∀ (env : OpenEnv) (s : HostState) (id : String),
      s.creatingComposites.contains id = false →
      mapGet s.composites id = none →
      env.hasDescriptor = true →
      env.createOutcome = CreateOutcome.ok →
      env.createUIOutcome = CreateUIOutcome.ok →
      mapGet (openComposite env s id).state.composites id
          = some (freshOpenedEntry s.nextTag env.hostBounds) ∧
      (freshOpenedEntry s.nextTag env.hostBounds).container.attached = true ∧
      (openComposite env s id).result
          = some (freshOpenedEntry s.nextTag env.hostBounds).composite := by
  intro env s id h1 h2 h3 h4 h5
  obtain ⟨s3, heq, hg3, ht3, _, _⟩ := openComposite_no_entry_to_create env s id h1 h2
  obtain ⟨r1, r2, _⟩ := openCompositeCreate_success env s3 id h3 h4 h5
  rw [heq, ← ht3]
  exact ⟨r1, rfl, r2⟩

/-- Witness for C10: opening the absent scm composite attaches its fresh
container to the host container. -/
theorem c10_caller_chosen_container_witness :
    (sampleHost.creatingComposites.contains "workbench.view.scm" = false ∧
      mapGet sampleHost.composites "workbench.view.scm" = none) ∧
    (mapGet (openComposite sampleEnvOk sampleHost "workbench.view.scm").state.composites
        "workbench.view.scm"
      = some (freshOpenedEntry sampleHost.nextTag sampleEnvOk.hostBounds) ∧
      (freshOpenedEntry sampleHost.nextTag sampleEnvOk.hostBounds).container.attached
        = true ∧
      (openComposite sampleEnvOk sampleHost "workbench.view.scm").result
        = some (freshOpenedEntry sampleHost.nextTag sampleEnvOk.hostBounds).composite) :=
  ⟨⟨rfl, by decide⟩,
   c10_caller_chosen_container sampleEnvOk sampleHost "workbench.view.scm"
     rfl (by decide) rfl rfl rfl⟩

/-- C4 counterexample: for a viewlet id unknown to both the pane composite
registry and the view descriptor service, creation fails (`openComposite`
returns `undefined`) yet `showViewlet` renders no placeholder — the content
wrapper stays empty, because `showPlaceholder` does nothing when
`getViewContainerById` yields no container. -/
theorem c4_failure_fallback_counterexample :
    sampleWidget.currentViewletId ≠ some "workbench.view.unknown" ∧
    (openComposite sampleShowEnvUnknown.hostEnv EmbeddedCompositeHost.initial
        "workbench.view.unknown").result = none ∧
    (showViewlet sampleShowEnvUnknown sampleWidget "workbench.view.unknown").wrapper
        = WrapperContent.empty ∧
    WrapperContent.isPlaceholder
        (showViewlet sampleShowEnvUnknown sampleWidget "workbench.view.unknown").wrapper
      = false :=
  ⟨by decide, by decide, by decide, by decide⟩

/-- C4 (amended): Failure fallback to placeholder — for a viewlet id different
from the current one, if the embedded host's creation throws or
`openComposite` yields `undefined`, `showViewlet` catches the failure (it is a
total function — no error propagates) and, provided the view descriptor
service knows a container for the id, renders that container's placeholder
into the content wrapper; no further recovery happens. -/
theorem c4_failure_fallback_amended :
    ∀ (env : ShowEnv) (w : WidgetState) (id : String) (vc : ViewContainer),
      w.currentViewletId ≠ some id →
      env.viewContainerById = some vc →
      (env.createInstanceThrows = true ∨
        (openComposite env.hostEnv EmbeddedCompositeHost.initial id).result = none) →
      (showViewlet env w id).wrapper = WrapperContent.placeholderFor vc.title := by
  intro env w id vc hne hvc hfail
  cases hthrows : env.createInstanceThrows with
  | true => simp [showViewlet, hne, hthrows, showPlaceholder, hvc]
  | false =>
      rcases hfail with h | h
      · rw [hthrows] at h
        simp at h
      · simp [showViewlet, hne, hthrows, h, showPlaceholder, hvc]

/-- Witness for the amended C4: a throwing `createInstance` with a known
container id renders the Search placeholder. -/
theorem c4_failure_fallback_witness :
    sampleWidget.currentViewletId ≠ some "workbench.view.search" ∧
    sampleShowEnvThrows.createInstanceThrows = true ∧
    sampleShowEnvThrows.viewContainerById
        = some { id := "workbench.view.search", title := "Search" } ∧
    (showViewlet sampleShowEnvThrows sampleWidget "workbench.view.search").wrapper
        = WrapperContent.placeholderFor "Search" :=
  ⟨by decide, rfl, rfl,
   c4_failure_fallback_amended sampleShowEnvThrows sampleWidget "workbench.view.search"
     { id := "workbench.view.search", title := "Search" } (by decide) rfl (Or.inl rfl)⟩

/-- C8: Icon-button switching — the activity bar holds exactly one button per
displayed container, in order (the pinned containers in pinned order when at
least one pinned id resolves, otherwise all available sidebar containers), and
a button's click handler, and its keydown handler on Enter or Space (and on no
other key), show that container's viewlet. -/
theorem c8_icon_button_switching :
    (∀ (pinnedViewletIds : List String) (allContainers : List ViewContainer),
      (createActivityBar pinnedViewletIds allContainers).map (fun b => b.viewletId)
          = (displayedContainers pinnedViewletIds allContainers).map (fun c => c.id) ∧
      displayedContainers pinnedViewletIds allContainers
          = (if pinnedViewletIds.filterMap
                (fun id => allContainers.find? (fun c => c.id == id)) = []
             then allContainers
             else pinnedViewletIds.filterMap
                (fun id => allContainers.find? (fun c => c.id == id)))) ∧
    (∀ b : ActivityButton,
      clickShows b = b.viewletId ∧
      keydownShows b "Enter" = some b.viewletId ∧
      keydownShows b " " = some b.viewletId) ∧
    (∀ (b : ActivityButton) (key : String),
      key ≠ "Enter" → key ≠ " " → keydownShows b key = none) := by
  refine ⟨?_, ?_, ?_⟩
  · intro pinned all
    constructor
    · simp [createActivityBar, List.map_map]
    · unfold displayedContainers
      by_cases h : pinned.filterMap (fun id => all.find? (fun c => c.id == id)) = []
      · simp [h]
      · simp [h, List.length_eq_zero]
  · intro b
    refine ⟨rfl, ?_, ?_⟩ <;> simp [keydownShows]
  · intro b key h1 h2
    simp [keydownShows, h1, h2]

/-- Witness for C8 with one pinned id resolving against two containers. -/
theorem c8_icon_button_switching_witness :
    ((createActivityBar ["workbench.view.search"] sampleContainers).map
          (fun b => b.viewletId)
        = (displayedContainers ["workbench.view.search"] sampleContainers).map
          (fun c => c.id) ∧
      displayedContainers ["workbench.view.search"] sampleContainers
        = (if (["workbench.view.search"] : List String).filterMap
              (fun id => sampleContainers.find? (fun c => c.id == id)) = []
           then sampleContainers
           else (["workbench.view.search"] : List String).filterMap
              (fun id => sampleContainers.find? (fun c => c.id == id)))) ∧
    (clickShows { ariaLabel := "Search", viewletId := "workbench.view.search" }
        = "workbench.view.search" ∧
      keydownShows { ariaLabel := "Search", viewletId := "workbench.view.search" } "Enter"
        = some "workbench.view.search" ∧
      keydownShows { ariaLabel := "Search", viewletId := "workbench.view.search" } " "
        = some "workbench.view.search") ∧
    keydownShows { ariaLabel := "Search", viewletId := "workbench.view.search" } "x"
        = none :=
  ⟨c8_icon_button_switching.1 ["workbench.view.search"] sampleContainers,
   c8_icon_button_switching.2.1 { ariaLabel := "Search", viewletId := "workbench.view.search" },
   c8_icon_button_switching.2.2 { ariaLabel := "Search", viewletId := "workbench.view.search" }
     "x" (by decide) (by decide)⟩

/-- C9: Pinned items from storage — `getPinnedViewletIds` returns the parsed
array whenever the stored value parses to a non-empty array, and the fixed
default list of the five viewlets (explorer, search, scm, debug, extensions)
when the key is absent (the `"[]"` fallback parses to the empty array), the
value fails to parse, parses to a non-array, or parses to an empty array. -/
theorem c9_pinned_items_from_storage :
    (∀ (parse : String → ParseResult) (str : String) (xs : List String),
      parse str = ParseResult.array xs → xs.length > 0 →
      getPinnedViewletIds parse (some str) = xs) ∧
    (∀ parse : String → ParseResult,
      parse "[]" = ParseResult.array [] →
      getPinnedViewletIds parse none = defaultPinnedViewlets) ∧
    (∀ (parse : String → ParseResult) (str : String),
      parse str = ParseResult.throwsError →
      getPinnedViewletIds parse (some str) = defaultPinnedViewlets) ∧
    (∀ (parse : String → ParseResult) (str : String),
      parse str = ParseResult.nonArray →
      getPinnedViewletIds parse (some str) = defaultPinnedViewlets) ∧
    (∀ (parse : String → ParseResult) (str : String),
      parse str = ParseResult.array [] →
      getPinnedViewletIds parse (some str) = defaultPinnedViewlets) ∧
    defaultPinnedViewlets = ["workbench.view.explorer", "workbench.view.search",
      "workbench.view.scm", "workbench.view.debug", "workbench.view.extensions"] := by
  refine ⟨?_, ?_, ?_, ?_, ?_, rfl⟩
  · intro parse str xs hp hlen
    simp [getPinnedViewletIds, hp, hlen]
  · intro parse hp
    simp [getPinnedViewletIds, hp]
  · intro parse str hp
    simp [getPinnedViewletIds, hp]
  · intro parse str hp
    simp [getPinnedViewletIds, hp]
  · intro parse str hp
    simp [getPinnedViewletIds, hp]

/-- Witness for C9 with the sample parse function: a stored one-element array
is returned as is; a missing key, a non-array and an unparsable value all give
the default five. -/
theorem c9_pinned_items_from_storage_witness :
    (sampleParse "[\"workbench.view.search\"]"
        = ParseResult.array ["workbench.view.search"] ∧
      getPinnedViewletIds sampleParse (some "[\"workbench.view.search\"]")
        = ["workbench.view.search"]) ∧
    (sampleParse "[]" = ParseResult.array [] ∧
      getPinnedViewletIds sampleParse none = defaultPinnedViewlets) ∧
    (sampleParse "42" = ParseResult.nonArray ∧
      getPinnedViewletIds sampleParse (some "42") = defaultPinnedViewlets) ∧
    (sampleParse "oops" = ParseResult.throwsError ∧
      getPinnedViewletIds sampleParse (some "oops") = defaultPinnedViewlets) :=
  ⟨⟨by decide,
    c9_pinned_items_from_storage.1 sampleParse "[\"workbench.view.search\"]"
      ["workbench.view.search"] (by decide) (by decide)⟩,
   ⟨by decide, c9_pinned_items_from_storage.2.1 sampleParse (by decide)⟩,
   ⟨by decide, c9_pinned_items_from_storage.2.2.2.1 sampleParse "42" (by decide)⟩,
   ⟨by decide, c9_pinned_items_from_storage.2.2.1 sampleParse "oops" (by decide)⟩⟩
